import Mathlib

/-!
Shallow embedding of the structured log/trace bridge in
`pkg/logger` (the `logger` package of `service.go`): zap levels, zap
fields, OpenTelemetry span attributes, the `Logger`/`SugaredLogger`
pair with their `logFields`/`log`/`logKVs`/`logArgs` cores,
`appendField`, `levelString`, `convertTraceID` and the global-logger
replacement machinery.

External collaborators (the zap sink, the Go runtime, `fmt`,
`otelutil`) are modelled as explicit inputs or as small rendering
functions; the bridge's own control flow is translated line by line
from the source.
-/

namespace OtelZap

/-- Zap logging level, an `int8` in the source (`zapcore.Level`):
Debug = -1, Info = 0, Warn = 1, Error = 2, DPanic = 3, Panic = 4,
Fatal = 5. -/
abbrev Level := Int

def debugLevel : Level := -1

def infoLevel : Level := 0

def warnLevel : Level := 1

def errorLevel : Level := 2

def dpanicLevel : Level := 3

def panicLevel : Level := 4

def fatalLevel : Level := 5

/-- From zapcore `Level.CapitalString`: the all-caps name of the level,
with a `LEVEL(n)` fallback for out-of-range values. -/
def capitalString (l : Level) : String :=
  if l = debugLevel then "DEBUG"
  else if l = infoLevel then "INFO"
  else if l = warnLevel then "WARN"
  else if l = errorLevel then "ERROR"
  else if l = dpanicLevel then "DPANIC"
  else if l = panicLevel then "PANIC"
  else if l = fatalLevel then "FATAL"
  else "LEVEL(" ++ toString l ++ ")"

/-- `levelString` from the source: DPanic is rendered as "PANIC";
every other level uses zapcore's capital rendering. -/
def levelString (lvl : Level) : String :=
  if lvl = dpanicLevel then "PANIC" else capitalString lvl

/-- OpenTelemetry attribute values as produced by this bridge
(`attribute.KeyValue`). A float attribute carries the IEEE-754 bit
pattern of its value, exactly the `int64` slot the source reads it
from (`math.Float64frombits(uint64(f.Integer))`). -/
inductive AttrValue where
  | bool (b : Bool)
  | int (n : Int)
  | float (bits : Int)
  | str (s : String)
  | strSlice (ss : List String)
  deriving DecidableEq, Repr

/-- One OpenTelemetry attribute: a key and a typed value. -/
structure Attr where
  key : String
  value : AttrValue
  deriving DecidableEq, Repr

def Attr.bool (k : String) (b : Bool) : Attr := ⟨k, .bool b⟩

def Attr.int (k : String) (n : Int) : Attr := ⟨k, .int n⟩

def Attr.float (k : String) (bits : Int) : Attr := ⟨k, .float bits⟩

def Attr.str (k : String) (s : String) : Attr := ⟨k, .str s⟩

def Attr.strSlice (k : String) (ss : List String) : Attr := ⟨k, .strSlice ss⟩

/-- The `zapcore.FieldType` tag of a field. `unknown n` stands for any
numeric tag value that is none of the named ones (the `default` arm of
the source's switch). -/
inductive FieldType where
  | bool
  | int8
  | int16
  | int32
  | int64
  | uint8
  | uint16
  | uint32
  | uint64
  | uintptr
  | float32
  | float64
  | complex64
  | complex128
  | string
  | binary
  | byteString
  | stringer
  | duration
  | time
  | timeFull
  | errorField
  | reflect
  | skip
  | arrayMarshaler
  | objectMarshaler
  | namespace
  | unknown (tag : Nat)
  deriving DecidableEq, Repr

/-- The observable behaviour of a `zapcore.ArrayMarshaler` when run
through the source's `bufferArrayEncoder`: the strings it appends and
the error (message) it returns, if any. -/
structure ArrayMarshal where
  strings : List String
  err : Option String
  deriving DecidableEq, Repr

/-- The `Interface` slot of a `zapcore.Field`, as a tagged payload.
Byte slices are carried as their raw byte-to-string reinterpretation,
a stringer as the result of its `String()`, a complex number as its
`strconv.FormatComplex` rendering, a reflected value as its
`otelutil` rendering: these conversions happen in external libraries
and only their results are observable to this bridge. -/
inductive Iface where
  | none
  | bytes (s : String)
  | stringerVal (s : String)
  | complexStr (s : String)
  | timeVal (unixNano : Int)
  | errVal (typeName : String) (msg : String)
  | reflected (rendered : String)
  | arrayVal (m : ArrayMarshal)
  | objectVal
  deriving DecidableEq, Repr

/-- A `zapcore.Field`: tag, key, and the integer / string / interface
payload slots. -/
structure Field where
  ftype : FieldType
  key : String
  integer : Int
  fstring : String
  iface : Iface
  deriving DecidableEq, Repr

/-- Reinterpret an unsigned 64-bit value (a `Nat` < 2^64 on the Go
side) as a signed `int64`, as Go's `int64(v)` conversion does. -/
def int64OfUInt64 (v : Nat) : Int :=
  let m : Nat := v % 2 ^ 64
  if m < 2 ^ 63 then (m : Int) else (m : Int) - 2 ^ 64

/-- `zap.Bool`: stores 1 in the integer slot for true, 0 for false. -/
def zapBool (k : String) (b : Bool) : Field :=
  ⟨.bool, k, if b then 1 else 0, "", .none⟩

def zapInt8 (k : String) (v : Int) : Field := ⟨.int8, k, v, "", .none⟩

def zapInt16 (k : String) (v : Int) : Field := ⟨.int16, k, v, "", .none⟩

def zapInt32 (k : String) (v : Int) : Field := ⟨.int32, k, v, "", .none⟩

def zapInt64 (k : String) (v : Int) : Field := ⟨.int64, k, v, "", .none⟩

/-- `zap.Uint8`: the value is widened losslessly into the int64 slot. -/
def zapUint8 (k : String) (v : Nat) : Field := ⟨.uint8, k, (v : Int), "", .none⟩

def zapUint16 (k : String) (v : Nat) : Field := ⟨.uint16, k, (v : Int), "", .none⟩

def zapUint32 (k : String) (v : Nat) : Field := ⟨.uint32, k, (v : Int), "", .none⟩

/-- `zap.Uint64`: the value is reinterpreted as `int64` (wrapping for
values ≥ 2^63) into the integer slot. -/
def zapUint64 (k : String) (v : Nat) : Field :=
  ⟨.uint64, k, int64OfUInt64 v, "", .none⟩

/-- `zap.Uintptr` on a 64-bit platform: same reinterpretation as
`zap.Uint64`. -/
def zapUintptr (k : String) (v : Nat) : Field :=
  ⟨.uintptr, k, int64OfUInt64 v, "", .none⟩

def zapString (k : String) (s : String) : Field := ⟨.string, k, 0, s, .none⟩

/-- Numeric code of a field tag, mirroring the `zapcore.FieldType`
enumeration, used only by the modelled `fmt` rendering of a field. -/
def FieldType.code : FieldType → Nat
  | .unknown tag => tag
  | .arrayMarshaler => 1
  | .objectMarshaler => 2
  | .binary => 3
  | .bool => 4
  | .byteString => 5
  | .complex128 => 6
  | .complex64 => 7
  | .duration => 8
  | .float64 => 9
  | .float32 => 10
  | .int64 => 11
  | .int32 => 12
  | .int16 => 13
  | .int8 => 14
  | .string => 15
  | .time => 16
  | .timeFull => 17
  | .uint64 => 18
  | .uint32 => 19
  | .uint16 => 20
  | .uint8 => 21
  | .uintptr => 22
  | .reflect => 23
  | .namespace => 24
  | .stringer => 25
  | .errorField => 26
  | .skip => 27

/-- Models Go's `fmt.Sprintf` default struct rendering of a
`zapcore.Field` value (used only in the diagnostic message of the
unknown-tag arm). -/
def fmtField (f : Field) : String :=
  "\x7b" ++ f.key ++ " " ++ toString f.ftype.code ++ " " ++
    toString f.integer ++ " " ++ f.fstring ++ "\x7d"

/-- OpenTelemetry semantic-convention keys used by the source. -/
def logSeverityKey : String := "log.severity"

def logMessageKey : String := "log.message"

def logTemplateKey : String := "log.template"

def exceptionTypeKey : String := "exception.type"

def exceptionMessageKey : String := "exception.message"

def codeFunctionKey : String := "code.function"

def codeFilepathKey : String := "code.filepath"

def codeLineNumberKey : String := "code.lineno"

def exceptionStacktraceKey : String := "exception.stacktrace"

/-- `appendField` from the source: converts one zap field into zero,
one or two OpenTelemetry attributes appended to `attrs`, never
failing (unsupported or failing cases become a string attribute at
`<key>_error`). -/
def appendField (attrs : List Attr) (f : Field) : List Attr :=
  match f.ftype with
  | .bool => attrs ++ [Attr.bool f.key (f.integer = 1)]
  | .int8 | .int16 | .int32 | .int64
  | .uint32 | .uint8 | .uint16 | .uint64
  | .uintptr => attrs ++ [Attr.int f.key f.integer]
  | .float32 | .float64 => attrs ++ [Attr.float f.key f.integer]
  | .complex64 | .complex128 =>
    match f.iface with
    | .complexStr s => attrs ++ [Attr.str f.key s]
    | _ => attrs ++ [Attr.str f.key ""]
  | .string => attrs ++ [Attr.str f.key f.fstring]
  | .binary | .byteString =>
    match f.iface with
    | .bytes s => attrs ++ [Attr.str f.key s]
    | _ => attrs ++ [Attr.str f.key ""]
  | .stringer =>
    match f.iface with
    | .stringerVal s => attrs ++ [Attr.str f.key s]
    | _ => attrs ++ [Attr.str f.key ""]
  | .duration | .time => attrs ++ [Attr.int f.key f.integer]
  | .timeFull =>
    match f.iface with
    | .timeVal ns => attrs ++ [Attr.int f.key ns]
    | _ => attrs ++ [Attr.int f.key 0]
  | .errorField =>
    match f.iface with
    | .errVal typeName msg =>
      attrs ++ [Attr.str exceptionTypeKey typeName,
                Attr.str exceptionMessageKey msg]
    | _ => attrs
  | .reflect =>
    match f.iface with
    | .reflected r => attrs ++ [Attr.str f.key r]
    | _ => attrs ++ [Attr.str f.key ""]
  | .skip => attrs
  | .arrayMarshaler =>
    match f.iface with
    | .arrayVal m =>
      match m.err with
      | some e =>
        attrs ++ [Attr.str (f.key ++ "_error")
          ("otelzap: unable to marshal array: " ++ e)]
      | none => attrs ++ [Attr.strSlice f.key m.strings]
    | _ => attrs ++ [Attr.strSlice f.key []]
  | .objectMarshaler =>
    attrs ++ [Attr.str (f.key ++ "_error")
      "otelzap: zapcore.ObjectMarshalerType is not implemented"]
  | .namespace | .unknown _ =>
    attrs ++ [Attr.str (f.key ++ "_error")
      ("otelzap: unknown field type: " ++ fmtField f)]

end OtelZap

namespace OtelZap

/-- Span status code subset used by the bridge (`codes.Error`). -/
inductive StatusCode where
  | unset
  | ok
  | error
  deriving DecidableEq, Repr

/-- One span event: a name with its attributes
(`span.AddEvent(name, trace.WithAttributes(attrs...))`). -/
structure SpanEvent where
  name : String
  attrs : List Attr
  deriving DecidableEq, Repr

/-- The span context exposed by `span.SpanContext()`: whether a trace
id is present, and the hex renderings of the trace and span ids. -/
structure SpanCtx where
  hasTraceID : Bool
  traceID : String
  spanID : String
  deriving DecidableEq, Repr

/-- The trace span carried by the call's context, as observed and
mutated by the bridge: recording flag, span context, accumulated
events, and status (code, description). -/
structure Span where
  isRecording : Bool
  ctx : SpanCtx
  events : List SpanEvent
  status : StatusCode × String
  deriving DecidableEq, Repr

/-- `span.AddEvent`: appends one event. -/
def Span.addEvent (sp : Span) (name : String) (attrs : List Attr) : Span :=
  { sp with events := sp.events ++ [⟨name, attrs⟩] }

/-- `span.SetStatus`: overwrites the status. -/
def Span.setStatus (sp : Span) (code : StatusCode) (descr : String) : Span :=
  { sp with status := (code, descr) }

/-- The stack frame data delivered by the Go runtime for the probed
program counter: function name, file, line and whether the PC slot is
non-zero. -/
structure Frame where
  function : String
  file : String
  line : Int
  pcNonZero : Bool
  deriving DecidableEq, Repr

/-- The ambient Go runtime as the bridge observes it during one call:
the frame found by `runtime.Callers` at the probed depth (`none` when
`runtime.Callers` returns 0 frames) and the text captured by
`runtime.Stack` into the 2048-byte buffer. -/
structure RuntimeEnv where
  frame : Option Frame
  stack : String
  deriving DecidableEq, Repr

/-- `runtimeCaller` from the source: probes one stack frame and
reports (function, file, line, ok) where ok is `frame.PC != 0`; an
empty probe yields zero values and false. -/
def runtimeCaller (env : RuntimeEnv) : String × String × Int × Bool :=
  match env.frame with
  | none => ("", "", 0, false)
  | some fr => (fr.function, fr.file, fr.line, fr.pcNonZero)

/-- The `Logger` configuration state. The embedded `*zap.Logger` pair
(the sink) is an external collaborator and carries no state the
bridge's control flow reads, so it is not part of the model. -/
structure Logger where
  withTraceID : Bool
  minLevel : Level
  errorStatusLevel : Level
  caller : Bool
  stackTrace : Bool
  extraFields : List Field
  callerDepth : Int
  deriving DecidableEq, Repr

/-- An `Option` mutates the logger configuration. -/
def LoggerOption := Logger → Logger

/-- `NewOtel`: defaults (minLevel = Warn, errorStatusLevel = Error,
caller on, callerDepth 0, everything else zero-valued), then the
options applied in order. -/
def NewOtel (opts : List LoggerOption) : Logger :=
  opts.foldl (fun l o => o l)
    { withTraceID := false
      minLevel := warnLevel
      errorStatusLevel := errorLevel
      caller := true
      stackTrace := false
      extraFields := []
      callerDepth := 0 }

def WithMinLevel (lvl : Level) : LoggerOption :=
  fun l => { l with minLevel := lvl }

def WithErrorStatusLevel (lvl : Level) : LoggerOption :=
  fun l => { l with errorStatusLevel := lvl }

def WithCaller (b : Bool) : LoggerOption :=
  fun l => { l with caller := b }

def WithCallerDepth (depth : Int) : LoggerOption :=
  fun l => { l with callerDepth := depth }

def WithStackTrace (b : Bool) : LoggerOption :=
  fun l => { l with stackTrace := b }

def WithExtraFields (fields : List Field) : LoggerOption :=
  fun l => { l with extraFields := l.extraFields ++ fields }

/-- `Logger.Clone`: copy the configuration by value and apply the
supplied options to the copy. -/
def Logger.clone (l : Logger) (opts : List LoggerOption) : Logger :=
  opts.foldl (fun c o => o c) l

/-- `Logger.log` from the source: extends the attributes with
severity, message, optional caller attributes and optional stack
trace, attaches them as one "log" event to the span, and sets the
span status to error with the message when the level reaches
`errorStatusLevel`. -/
def Logger.log (l : Logger) (env : RuntimeEnv) (span : Span)
    (lvl : Level) (msg : String) (attrs : List Attr) : Span :=
  let attrs := attrs ++ [Attr.str logSeverityKey (levelString lvl)]
  let attrs := attrs ++ [Attr.str logMessageKey msg]
  let attrs :=
    if l.caller then
      match runtimeCaller env with
      | (fn, file, line, true) =>
        let attrs := if fn ≠ "" then attrs ++ [Attr.str codeFunctionKey fn]
          else attrs
        if file ≠ "" then
          attrs ++ [Attr.str codeFilepathKey file, Attr.int codeLineNumberKey line]
        else attrs
      | (_, _, _, false) => attrs
    else attrs
  let attrs :=
    if l.stackTrace then attrs ++ [Attr.str exceptionStacktraceKey env.stack]
    else attrs
  let span := span.addEvent "log" attrs
  if l.errorStatusLevel ≤ lvl then span.setStatus StatusCode.error msg
  else span

/-- Go `len` of a string, modelled as character count (every string
this bridge measures or slices is ASCII hex). -/
def goLen (s : String) : Nat := s.data.length

/-- Go slice `id[16:]` on an ASCII string. -/
def goDrop16 (s : String) : String := ⟨s.data.drop 16⟩

/-- Hex digit value accepted by `strconv.ParseUint` with base 16. -/
def hexDigitVal (c : Char) : Option Nat :=
  let n := c.toNat
  if 48 ≤ n ∧ n ≤ 57 then some (n - 48)
  else if 97 ≤ n ∧ n ≤ 102 then some (n - 87)
  else if 65 ≤ n ∧ n ≤ 70 then some (n - 55)
  else none

/-- `strconv.ParseUint(s, 16, 64)`: fails on an empty string, a
non-hex character, or a value exceeding the unsigned 64-bit range. -/
def parseHexUint64 (s : String) : Option Nat :=
  if s.data.isEmpty then none
  else
    s.data.foldl
      (fun acc c => do
        let a ← acc
        let d ← hexDigitVal c
        let v := a * 16 + d
        if v < 2 ^ 64 then some v else none)
      (some 0)

/-- `convertTraceID` from the source: empty for inputs shorter than
16, otherwise parse the last-sliced 16 hex characters as an unsigned
64-bit value and render it in decimal, falling back to empty on parse
failure. -/
def convertTraceID (id : String) : String :=
  if goLen id < 16 then ""
  else
    let id := if goLen id > 16 then goDrop16 id else id
    match parseHexUint64 id with
    | none => ""
    | some v => Nat.repr v

/-- The four extra fields `logFields` appends to the sink's field
list when `withTraceID` is on and the span has a trace id. -/
def traceIDFields (sp : Span) : List Field :=
  [zapString "traceId" sp.ctx.traceID,
   zapString "trace_id" (convertTraceID sp.ctx.traceID),
   zapString "spanId" sp.ctx.spanID,
   zapString "span_id" (convertTraceID sp.ctx.spanID)]

/-- `Logger.logFields` from the source, with the span made an
explicit input/output: appends `extraFields`, returns early below
`minLevel` or on a non-recording span, otherwise converts the fields
(skipping namespace fields) to attributes, delegates to `log`, and
optionally appends the trace-id fields for the sink. -/
def Logger.logFields (l : Logger) (env : RuntimeEnv) (span : Span)
    (lvl : Level) (msg : String) (fields : List Field) :
    Span × List Field :=
  let fields :=
    if 0 < l.extraFields.length then fields ++ l.extraFields else fields
  if lvl < l.minLevel then (span, fields)
  else if !span.isRecording then (span, fields)
  else
    let attrs := fields.foldl
      (fun attrs f =>
        if f.ftype = FieldType.namespace then attrs else appendField attrs f)
      []
    let span2 := l.log env span lvl msg attrs
    let fields :=
      if l.withTraceID then
        if span.ctx.hasTraceID then fields ++ traceIDFields span else fields
      else fields
    (span2, fields)

end OtelZap

namespace OtelZap

/-- A loosely-typed Go value passed to the sugared API
(`interface{}`), tagged with whether it is a string (the only type
assertion the bridge performs) and otherwise carried by the rendering
the external libraries would give it. -/
inductive GoVal where
  | str (s : String)
  | int (n : Int)
  | bool (b : Bool)
  | other (rendered : String)
  deriving DecidableEq, Repr

/-- Models `otelutil.Attribute` (external uptrace helper): dispatches
a loosely-typed value to a typed attribute. -/
def otelutilAttribute (key : String) : GoVal → Attr
  | .str s => Attr.str key s
  | .int n => Attr.int key n
  | .bool b => Attr.bool key b
  | .other r => Attr.str key r

/-- The key/value scan of `logKVs`: walk adjacent pairs (index step 2,
stopping before a trailing orphan); a pair whose key is a string
becomes one attribute, any other pair is skipped. -/
def collectKVs : List GoVal → List Attr
  | k :: v :: rest =>
    (match k with
     | .str key => [otelutilAttribute key v]
     | _ => []) ++ collectKVs rest
  | _ => []

/-- The four extra key/value entries `logKVs` appends for the sink
when `withTraceID` is on and the span has a trace id. -/
def traceIDKVs (sp : Span) : List GoVal :=
  [.str "traceId", .str sp.ctx.traceID,
   .str "trace_id", .str (convertTraceID sp.ctx.traceID),
   .str "spanId", .str sp.ctx.spanID,
   .str "span_id", .str (convertTraceID sp.ctx.spanID)]

/-- `SugaredLogger.logKVs` from the source, span explicit: early
return below `minLevel` or on a non-recording span; otherwise collect
string-keyed pairs into attributes, delegate to `log`, and optionally
append trace-id entries for the sink. -/
def SugaredLogger.logKVs (l : Logger) (env : RuntimeEnv) (span : Span)
    (lvl : Level) (msg : String) (kvs : List GoVal) :
    Span × List GoVal :=
  if lvl < l.minLevel then (span, kvs)
  else if !span.isRecording then (span, kvs)
  else
    let attrs := collectKVs kvs
    let span2 := l.log env span lvl msg attrs
    let kvs :=
      if l.withTraceID then
        if span.ctx.hasTraceID then kvs ++ traceIDKVs span else kvs
      else kvs
    (span2, kvs)

/-- Default textual rendering of a loosely-typed value, used by the
modelled `fmt.Sprintf`. -/
def GoVal.render : GoVal → String
  | .str s => s
  | .int n => toString n
  | .bool b => toString b
  | .other r => r

/-- Models `fmt.Sprintf(template, args...)` (external Go stdlib). The
exact interpolation is not read by any theorem; only the fact that the
span receives the template, not this result, matters to the spec. -/
def goSprintf (template : String) (args : List GoVal) : String :=
  template ++ String.join (args.map GoVal.render)

/-- `SugaredLogger.logArgs` from the source, span explicit: early
return below `minLevel` or on a non-recording span; otherwise attach
only the template as an attribute and delegate to `log` with the
formatted message. -/
def SugaredLogger.logArgs (l : Logger) (env : RuntimeEnv) (span : Span)
    (lvl : Level) (template : String) (args : List GoVal) : Span :=
  if lvl < l.minLevel then span
  else if !span.isRecording then span
  else
    let attrs := [Attr.str logTemplateKey template]
    l.log env span lvl (goSprintf template args) attrs

/-- A `SugaredLogger`: wraps the sugared zap sinks (external) around
the same bridge `Logger`. Only the bridge logger is state the bridge
reads. -/
structure SugaredLogger where
  l : Logger
  deriving DecidableEq, Repr

/-- `Logger.Sugar`. -/
def Logger.sugar (l : Logger) : SugaredLogger := ⟨l⟩

/-- The pair of process-wide globals guarded by `_globalMu`
(`_globalL`, `_globalS`). -/
structure GlobalState where
  globalL : Logger
  globalS : SugaredLogger
  deriving DecidableEq, Repr

/-- The initial global state: `NewOtel(zap.NewNop())` and its sugared
wrapper. -/
def initialGlobals : GlobalState :=
  let l := NewOtel []
  ⟨l, l.sugar⟩

/-- `L()`: read the global logger. -/
def L (st : GlobalState) : Logger := st.globalL

/-- `S()`: read the global sugared logger. -/
def S (st : GlobalState) : SugaredLogger := st.globalS

/-- The state update performed inside `ReplaceGlobals` under the
lock: install the new logger and its sugared wrapper. -/
def replaceGlobalsState (logger : Logger) (_st : GlobalState) : GlobalState :=
  ⟨logger, logger.sugar⟩

/-- `ReplaceGlobals` from the source: swap in the new logger and
return the restore closure, which captured the previous global logger
and reinstalls it by calling `ReplaceGlobals` on it (the closure's own
returned restore function is discarded, so only the state update of
that inner call is observable). -/
def ReplaceGlobals (logger : Logger) (st : GlobalState) :
    GlobalState × (GlobalState → GlobalState) :=
  let prev := st.globalL
  (replaceGlobalsState logger st, fun st2 => replaceGlobalsState prev st2)

end OtelZap

namespace OtelZap

/-- C10: the log.severity value renders the DPanic level as "PANIC",
identical to the Panic level and distinct from "DPANIC"; every other
level uses its own capitalized level name. -/
theorem C10_dpanic_severity_renders_as_panic :
    levelString dpanicLevel = "PANIC" ∧
    levelString dpanicLevel = levelString panicLevel ∧
    levelString dpanicLevel ≠ "DPANIC" ∧
    levelString debugLevel = "DEBUG" ∧
    levelString infoLevel = "INFO" ∧
    levelString warnLevel = "WARN" ∧
    levelString errorLevel = "ERROR" ∧
    levelString panicLevel = "PANIC" ∧
    levelString fatalLevel = "FATAL" := by
  decide

/-- C6: ReplaceGlobals followed immediately by the restore closure it
returned is a round trip: a subsequent L() read returns a value
structurally equal to the pre-replacement global logger. -/
theorem C6_replaceGlobals_restore_roundtrip :
    ∀ (st : GlobalState) (newLogger : Logger),
      L ((ReplaceGlobals newLogger st).2 ((ReplaceGlobals newLogger st).1)) =
        L st := by
  intro st newLogger
  rfl

/-- C7: appendField absorbs every failure into a string attribute at
`<key>_error` and never fails: an object-marshaler field reports that
object encoding is not implemented, an array-marshaler field whose
marshal errors reports the failure instead of the string-array
attribute, and an unrecognized tag reports the unknown field. -/
theorem C7_appendField_error_absorption :
    (∀ (attrs : List Attr) (k fs : String) (n : Int) (ifc : Iface),
      appendField attrs ⟨.objectMarshaler, k, n, fs, ifc⟩ =
        attrs ++ [Attr.str (k ++ "_error")
          "otelzap: zapcore.ObjectMarshalerType is not implemented"]) ∧
    (∀ (attrs : List Attr) (k fs : String) (n : Int) (ss : List String)
        (e : String),
      appendField attrs ⟨.arrayMarshaler, k, n, fs, .arrayVal ⟨ss, some e⟩⟩ =
        attrs ++ [Attr.str (k ++ "_error")
          ("otelzap: unable to marshal array: " ++ e)]) ∧
    (∀ (attrs : List Attr) (k fs : String) (n : Int) (ifc : Iface)
        (tag : Nat),
      appendField attrs ⟨.unknown tag, k, n, fs, ifc⟩ =
        attrs ++ [Attr.str (k ++ "_error")
          ("otelzap: unknown field type: " ++
            fmtField ⟨.unknown tag, k, n, fs, ifc⟩)]) := by
  refine ⟨fun attrs k fs n ifc => rfl, fun attrs k fs n ss e => rfl,
    fun attrs k fs n ifc tag => rfl⟩

/-- C4: convertTraceID maps every input shorter than 16 characters to
the empty string; on a 32-character input it returns the decimal
rendering of the characters from index 16 onward parsed as an
unsigned 64-bit base-16 value, and the empty string whenever that
parse fails. -/
theorem C4_convertTraceID_spec :
    (∀ s : String, goLen s < 16 → convertTraceID s = "") ∧
    (∀ s : String, goLen s = 32 →
      (∀ v : Nat, parseHexUint64 (goDrop16 s) = some v →
        convertTraceID s = Nat.repr v) ∧
      (parseHexUint64 (goDrop16 s) = none → convertTraceID s = "")) := by
  constructor
  · intro s h
    simp [convertTraceID, h]
  · intro s h
    have h1 : ¬ goLen s < 16 := by omega
    have h2 : goLen s > 16 := by omega
    constructor
    · intro v hv
      simp [convertTraceID, h1, h2, hv]
    · intro hv
      simp [convertTraceID, h1, h2, hv]

/-- C4 witness: the general theorem applied to a short input, a valid
32-character trace id, and a 32-character input whose low half does
not parse as hex. -/
theorem C4_convertTraceID_spec_witness :
    convertTraceID "abc" = "" ∧
    convertTraceID "463ac35c9f6413ad48485a3953bb6124" = "5208512171318403364" ∧
    convertTraceID "463ac35c9f6413adZZ485a3953bb6124" = "" := by
  refine ⟨C4_convertTraceID_spec.1 "abc" (by decide), ?_, ?_⟩
  · have h := (C4_convertTraceID_spec.2 "463ac35c9f6413ad48485a3953bb6124"
      (by decide)).1 5208512171318403364 (by decide)
    exact h
  · exact (C4_convertTraceID_spec.2 "463ac35c9f6413adZZ485a3953bb6124"
      (by decide)).2 (by decide)

end OtelZap

namespace OtelZap

/-- The `int64` reinterpretation is the identity below 2^63. -/
theorem int64OfUInt64_of_lt (v : Nat) (h : v < 2 ^ 63) :
    int64OfUInt64 v = (v : Int) := by
  simp only [int64OfUInt64]
  have hm : v % 2 ^ 64 = v := Nat.mod_eq_of_lt (by omega)
  rw [hm, if_pos h]

/-- The `int64` reinterpretation subtracts 2^64 at or above 2^63. -/
theorem int64OfUInt64_of_ge (v : Nat) (h1 : 2 ^ 63 ≤ v) (h2 : v < 2 ^ 64) :
    int64OfUInt64 v = (v : Int) - 2 ^ 64 := by
  simp only [int64OfUInt64]
  have hm : v % 2 ^ 64 = v := Nat.mod_eq_of_lt h2
  rw [hm, if_neg (by omega)]

/-- C5: appendField turns every integer-width field into a 64-bit
signed integer attribute carrying the field's integer slot directly;
this is value-preserving for all widths except an unsigned 64-bit
value (including uintptr) above 2^63 - 1, which wraps by
reinterpretation into a negative value. -/
theorem C5_appendField_integer_widths :
    (∀ (attrs : List Attr) (k : String) (v : Int),
      -(2 ^ 7) ≤ v → v < 2 ^ 7 →
      appendField attrs (zapInt8 k v) = attrs ++ [Attr.int k v]) ∧
    (∀ (attrs : List Attr) (k : String) (v : Int),
      -(2 ^ 15) ≤ v → v < 2 ^ 15 →
      appendField attrs (zapInt16 k v) = attrs ++ [Attr.int k v]) ∧
    (∀ (attrs : List Attr) (k : String) (v : Int),
      -(2 ^ 31) ≤ v → v < 2 ^ 31 →
      appendField attrs (zapInt32 k v) = attrs ++ [Attr.int k v]) ∧
    (∀ (attrs : List Attr) (k : String) (v : Int),
      -(2 ^ 63) ≤ v → v < 2 ^ 63 →
      appendField attrs (zapInt64 k v) = attrs ++ [Attr.int k v]) ∧
    (∀ (attrs : List Attr) (k : String) (v : Nat), v < 2 ^ 8 →
      appendField attrs (zapUint8 k v) = attrs ++ [Attr.int k (v : Int)]) ∧
    (∀ (attrs : List Attr) (k : String) (v : Nat), v < 2 ^ 16 →
      appendField attrs (zapUint16 k v) = attrs ++ [Attr.int k (v : Int)]) ∧
    (∀ (attrs : List Attr) (k : String) (v : Nat), v < 2 ^ 32 →
      appendField attrs (zapUint32 k v) = attrs ++ [Attr.int k (v : Int)]) ∧
    (∀ (attrs : List Attr) (k : String) (v : Nat), v < 2 ^ 63 →
      appendField attrs (zapUint64 k v) = attrs ++ [Attr.int k (v : Int)]) ∧
    (∀ (attrs : List Attr) (k : String) (v : Nat),
      2 ^ 63 ≤ v → v < 2 ^ 64 →
      appendField attrs (zapUint64 k v) =
          attrs ++ [Attr.int k ((v : Int) - 2 ^ 64)] ∧
        (v : Int) - 2 ^ 64 < 0) ∧
    (∀ (attrs : List Attr) (k : String) (v : Nat), v < 2 ^ 63 →
      appendField attrs (zapUintptr k v) = attrs ++ [Attr.int k (v : Int)]) ∧
    (∀ (attrs : List Attr) (k : String) (v : Nat),
      2 ^ 63 ≤ v → v < 2 ^ 64 →
      appendField attrs (zapUintptr k v) =
          attrs ++ [Attr.int k ((v : Int) - 2 ^ 64)] ∧
        (v : Int) - 2 ^ 64 < 0) := by
  refine ⟨fun attrs k v _ _ => rfl, fun attrs k v _ _ => rfl,
    fun attrs k v _ _ => rfl, fun attrs k v _ _ => rfl,
    fun attrs k v _ => rfl, fun attrs k v _ => rfl, fun attrs k v _ => rfl,
    ?_, ?_, ?_, ?_⟩
  · intro attrs k v h
    simp [appendField, zapUint64, int64OfUInt64_of_lt v h]
  · intro attrs k v h1 h2
    constructor
    · simp [appendField, zapUint64, int64OfUInt64_of_ge v h1 h2]
    · omega
  · intro attrs k v h
    simp [appendField, zapUintptr, int64OfUInt64_of_lt v h]
  · intro attrs k v h1 h2
    constructor
    · simp [appendField, zapUintptr, int64OfUInt64_of_ge v h1 h2]
    · omega

/-- C5 witness: the general theorem at concrete values of every
width, including an unsigned 64-bit value above 2^63 - 1 that wraps
to a negative attribute. -/
theorem C5_appendField_integer_widths_witness :
    appendField [] (zapInt8 "k" (-5)) = [Attr.int "k" (-5)] ∧
    appendField [] (zapInt16 "k" 300) = [Attr.int "k" 300] ∧
    appendField [] (zapInt32 "k" 70000) = [Attr.int "k" 70000] ∧
    appendField [] (zapInt64 "k" 9000000000) = [Attr.int "k" 9000000000] ∧
    appendField [] (zapUint8 "k" 200) = [Attr.int "k" 200] ∧
    appendField [] (zapUint16 "k" 60000) = [Attr.int "k" 60000] ∧
    appendField [] (zapUint32 "k" 4000000000) = [Attr.int "k" 4000000000] ∧
    appendField [] (zapUint64 "k" 42) = [Attr.int "k" 42] ∧
    (appendField [] (zapUint64 "k" (2 ^ 63)) =
        [Attr.int "k" (((2 ^ 63 : Nat) : Int) - 2 ^ 64)] ∧
      ((2 ^ 63 : Nat) : Int) - 2 ^ 64 < 0) ∧
    appendField [] (zapUintptr "k" 7) = [Attr.int "k" 7] ∧
    (appendField [] (zapUintptr "k" (2 ^ 64 - 1)) =
        [Attr.int "k" (((2 ^ 64 - 1 : Nat) : Int) - 2 ^ 64)] ∧
      ((2 ^ 64 - 1 : Nat) : Int) - 2 ^ 64 < 0) := by
  obtain ⟨h1, h2, h3, h4, h5, h6, h7, h8, h9, h10, h11⟩ :=
    C5_appendField_integer_widths
  exact ⟨h1 [] "k" (-5) (by decide) (by decide),
    h2 [] "k" 300 (by decide) (by decide),
    h3 [] "k" 70000 (by decide) (by decide),
    h4 [] "k" 9000000000 (by norm_num) (by norm_num),
    h5 [] "k" 200 (by decide),
    h6 [] "k" 60000 (by decide),
    h7 [] "k" 4000000000 (by norm_num),
    h8 [] "k" 42 (by norm_num),
    h9 [] "k" (2 ^ 63) (by norm_num) (by norm_num),
    h10 [] "k" 7 (by norm_num),
    h11 [] "k" (2 ^ 64 - 1) (by norm_num) (by norm_num)⟩

/-- C3: a strict-API call strictly below minLevel produces no span
mutation (so no span attributes at all) and still returns the field
list with the logger's extraFields appended for the sink. -/
theorem C3_below_minLevel_skips_span_keeps_extraFields :
    ∀ (l : Logger) (env : RuntimeEnv) (span : Span) (lvl : Level)
      (msg : String) (fields : List Field),
      lvl < l.minLevel →
      l.logFields env span lvl msg fields = (span, fields ++ l.extraFields) := by
  intro l env span lvl msg fields h
  simp only [Logger.logFields]
  rw [if_pos h]
  by_cases hlen : 0 < l.extraFields.length
  · rw [if_pos hlen]
  · rw [if_neg hlen]
    have hnil : l.extraFields = [] := by
      cases hx : l.extraFields with
      | nil => rfl
      | cons a t => rw [hx] at hlen; simp at hlen
    rw [hnil]
    simp

/-- C3 witness: the theorem at a concrete logger with one extra
field, called at Info with minLevel Warn. -/
theorem C3_below_minLevel_witness :
    Logger.logFields (NewOtel [WithExtraFields [zapInt64 "version" 3]])
        ⟨none, ""⟩ ⟨true, ⟨false, "", ""⟩, [], (StatusCode.unset, "")⟩
        infoLevel "boot" [zapString "a" "b"] =
      (⟨true, ⟨false, "", ""⟩, [], (StatusCode.unset, "")⟩,
        [zapString "a" "b", zapInt64 "version" 3]) := by
  exact C3_below_minLevel_skips_span_keeps_extraFields
    (NewOtel [WithExtraFields [zapInt64 "version" 3]]) ⟨none, ""⟩
    ⟨true, ⟨false, "", ""⟩, [], (StatusCode.unset, "")⟩
    infoLevel "boot" [zapString "a" "b"] (by decide)

end OtelZap

namespace OtelZap

/-- C2: when the context's span is not recording, none of the three
sugar levels of the API (strict fields, sugared key/values, sugared
template) mutates the span, regardless of the call's level. -/
theorem C2_nonrecording_span_never_mutated :
    ∀ (l : Logger) (env : RuntimeEnv) (span : Span) (lvl : Level)
      (msg template : String) (fields : List Field) (kvs args : List GoVal),
      span.isRecording = false →
      (l.logFields env span lvl msg fields).1 = span ∧
      (SugaredLogger.logKVs l env span lvl msg kvs).1 = span ∧
      SugaredLogger.logArgs l env span lvl template args = span := by
  intro l env span lvl msg template fields kvs args h
  refine ⟨?_, ?_, ?_⟩
  · by_cases h1 : lvl < l.minLevel
    · simp [Logger.logFields, h1]
    · simp [Logger.logFields, h1, h]
  · by_cases h1 : lvl < l.minLevel
    · simp [SugaredLogger.logKVs, h1]
    · simp [SugaredLogger.logKVs, h1, h]
  · by_cases h1 : lvl < l.minLevel
    · simp [SugaredLogger.logArgs, h1]
    · simp [SugaredLogger.logArgs, h1, h]

/-- C2 witness: the theorem at a concrete logger and a concrete
non-recording span, at a level far above every threshold. -/
theorem C2_nonrecording_span_never_mutated_witness :
    (Logger.logFields (NewOtel []) ⟨none, ""⟩
        ⟨false, ⟨true, "463ac35c9f6413ad48485a3953bb6124", "48485a3953bb6124"⟩,
          [], (StatusCode.unset, "")⟩
        fatalLevel "boom" [zapString "a" "b"]).1 =
      ⟨false, ⟨true, "463ac35c9f6413ad48485a3953bb6124", "48485a3953bb6124"⟩,
        [], (StatusCode.unset, "")⟩ ∧
    (SugaredLogger.logKVs (NewOtel []) ⟨none, ""⟩
        ⟨false, ⟨true, "463ac35c9f6413ad48485a3953bb6124", "48485a3953bb6124"⟩,
          [], (StatusCode.unset, "")⟩
        fatalLevel "boom" [GoVal.str "id", GoVal.int 1]).1 =
      ⟨false, ⟨true, "463ac35c9f6413ad48485a3953bb6124", "48485a3953bb6124"⟩,
        [], (StatusCode.unset, "")⟩ ∧
    SugaredLogger.logArgs (NewOtel []) ⟨none, ""⟩
        ⟨false, ⟨true, "463ac35c9f6413ad48485a3953bb6124", "48485a3953bb6124"⟩,
          [], (StatusCode.unset, "")⟩
        fatalLevel "fail: %v" [GoVal.int 1] =
      ⟨false, ⟨true, "463ac35c9f6413ad48485a3953bb6124", "48485a3953bb6124"⟩,
        [], (StatusCode.unset, "")⟩ := by
  exact C2_nonrecording_span_never_mutated (NewOtel []) ⟨none, ""⟩
    ⟨false, ⟨true, "463ac35c9f6413ad48485a3953bb6124", "48485a3953bb6124"⟩,
      [], (StatusCode.unset, "")⟩
    fatalLevel "boom" "fail: %v" [zapString "a" "b"]
    [GoVal.str "id", GoVal.int 1] [GoVal.int 1] rfl

/-- C1 counterexample: a logger whose minLevel (Fatal) sits above its
errorStatusLevel (Error, the default) and a strict call at Error level
on a recording span: the level is at the error-status threshold, yet
the span's status is left untouched, because logFields returns before
reaching the status escalation when the level is below minLevel. -/
theorem C1_counterexample_status_gated_by_minLevel :
    (Span.isRecording
        ⟨true, ⟨false, "", ""⟩, [], (StatusCode.unset, "")⟩ = true) ∧
    (NewOtel [WithMinLevel fatalLevel]).errorStatusLevel ≤ errorLevel ∧
    (Logger.logFields (NewOtel [WithMinLevel fatalLevel]) ⟨none, ""⟩
        ⟨true, ⟨false, "", ""⟩, [], (StatusCode.unset, "")⟩
        errorLevel "db down" []).1.status ≠ (StatusCode.error, "db down") := by
  refine ⟨rfl, by decide, ?_⟩
  decide

/-- C1 amended: for every strict log call with a recording span in
the context at a level at or above the logger's errorStatusLevel that
also reaches minLevel (without which the call never touches the
span), the span's status is set to error with description equal to
the exact log message. -/
theorem C1_amended_error_status_set :
    ∀ (l : Logger) (env : RuntimeEnv) (span : Span) (lvl : Level)
      (msg : String) (fields : List Field),
      span.isRecording = true →
      l.minLevel ≤ lvl →
      l.errorStatusLevel ≤ lvl →
      (l.logFields env span lvl msg fields).1.status =
        (StatusCode.error, msg) := by
  intro l env span lvl msg fields hrec hmin herr
  have h1 : ¬ lvl < l.minLevel := not_lt.mpr hmin
  simp [Logger.logFields, h1, hrec, Logger.log, herr, Span.addEvent,
    Span.setStatus]

/-- C1 amended witness: the default logger (minLevel Warn,
errorStatusLevel Error) at Error level on a recording span. -/
theorem C1_amended_error_status_set_witness :
    (Logger.logFields (NewOtel []) ⟨none, ""⟩
        ⟨true, ⟨false, "", ""⟩, [], (StatusCode.unset, "")⟩
        errorLevel "db down" []).1.status = (StatusCode.error, "db down") := by
  exact C1_amended_error_status_set (NewOtel []) ⟨none, ""⟩
    ⟨true, ⟨false, "", ""⟩, [], (StatusCode.unset, "")⟩
    errorLevel "db down" [] rfl (by decide) (by decide)

/-- C8: a sugared key/value call on a recording span at or above
minLevel delegates to the shared log core with exactly the attributes
of the adjacent string-keyed pairs; a pair with a non-string key and
a trailing orphaned key contribute no attribute; and (absent the
trace-id option) the sink still receives the original key/value
arguments unchanged. -/
theorem C8_logKVs_drops_bad_pairs_keeps_args :
    ∀ (l : Logger) (env : RuntimeEnv) (span : Span) (lvl : Level)
      (msg : String) (kvs : List GoVal),
      span.isRecording = true →
      l.minLevel ≤ lvl →
      (SugaredLogger.logKVs l env span lvl msg kvs).1 =
        l.log env span lvl msg (collectKVs kvs) ∧
      (∀ (key : String) (v : GoVal) (rest : List GoVal),
        collectKVs (GoVal.str key :: v :: rest) =
          otelutilAttribute key v :: collectKVs rest) ∧
      (∀ (k v : GoVal) (rest : List GoVal), (∀ s, k ≠ GoVal.str s) →
        collectKVs (k :: v :: rest) = collectKVs rest) ∧
      (∀ k : GoVal, collectKVs [k] = []) ∧
      (l.withTraceID = false →
        (SugaredLogger.logKVs l env span lvl msg kvs).2 = kvs) := by
  intro l env span lvl msg kvs hrec hmin
  have h1 : ¬ lvl < l.minLevel := not_lt.mpr hmin
  refine ⟨?_, ?_, ?_, ?_, ?_⟩
  · simp [SugaredLogger.logKVs, h1, hrec]
  · intro key v rest
    rfl
  · intro k v rest hk
    cases k with
    | str s => exact absurd rfl (hk s)
    | int n => simp [collectKVs]
    | bool b => simp [collectKVs]
    | other r => simp [collectKVs]
  · intro k
    rfl
  · intro hw
    simp [SugaredLogger.logKVs, h1, hrec, hw]

/-- C8 witness: the spec's scenario `Infow("user created", "id", 42,
"oops")` on a recording span with minLevel Info: `id=42` is attached,
the orphaned trailing key contributes nothing, and the sink receives
the original arguments. -/
theorem C8_logKVs_drops_bad_pairs_keeps_args_witness :
    (SugaredLogger.logKVs (NewOtel [WithMinLevel infoLevel]) ⟨none, ""⟩
        ⟨true, ⟨false, "", ""⟩, [], (StatusCode.unset, "")⟩ infoLevel
        "user created" [GoVal.str "id", GoVal.int 42, GoVal.str "oops"]).1 =
      Logger.log (NewOtel [WithMinLevel infoLevel]) ⟨none, ""⟩
        ⟨true, ⟨false, "", ""⟩, [], (StatusCode.unset, "")⟩ infoLevel
        "user created" [Attr.int "id" 42] ∧
    collectKVs [GoVal.str "id", GoVal.int 42, GoVal.str "oops"] =
      [Attr.int "id" 42] ∧
    collectKVs [GoVal.int 7, GoVal.bool true, GoVal.str "id", GoVal.int 42] =
      collectKVs [GoVal.str "id", GoVal.int 42] ∧
    (SugaredLogger.logKVs (NewOtel [WithMinLevel infoLevel]) ⟨none, ""⟩
        ⟨true, ⟨false, "", ""⟩, [], (StatusCode.unset, "")⟩ infoLevel
        "user created" [GoVal.str "id", GoVal.int 42, GoVal.str "oops"]).2 =
      [GoVal.str "id", GoVal.int 42, GoVal.str "oops"] := by
  have h := C8_logKVs_drops_bad_pairs_keeps_args
    (NewOtel [WithMinLevel infoLevel]) ⟨none, ""⟩
    ⟨true, ⟨false, "", ""⟩, [], (StatusCode.unset, "")⟩ infoLevel
    "user created" [GoVal.str "id", GoVal.int 42, GoVal.str "oops"]
    rfl (by decide)
  refine ⟨h.1, by decide, ?_, h.2.2.2.2 rfl⟩
  exact h.2.2.1 (GoVal.int 7) (GoVal.bool true) [GoVal.str "id", GoVal.int 42]
    (by intro s hcon; cases hcon)

end OtelZap
